import Mathlib

/-!
Shallow embedding of `src/ingame/objects.py` (the InGame widget wrappers).

The module wraps tkinter widgets: each class type-checks its `Screen`
argument, creates one native widget, packs it with `None`-filtered
packargs, and forwards `config`/`destroy` to the native layer.  The
native toolkit, the HTTP client (`requests`) and the image decoder
(`PIL`) are external collaborators; they are modelled as parameters
(environments), and the side effects a constructor performs are recorded
in an explicit event trace.
-/

namespace InGame

/-- Errors surfaced to the caller: `TypeError` from the isinstance
check, `requests.HTTPError` from `raise_for_status`, a PIL decode
error from `PILImage.open`, PIL's `ValueError` from `resize` on a
nonpositive target dimension, and a Tcl error from the native layer. -/
inductive PyError where
  | typeError (msg : String)
  | httpError
  | decodeError
  | valueError
  | tclError
  deriving DecidableEq, Repr

/-- The screen collaborator: exposes a `root` container handle. -/
structure Screen where
  root : Nat
  deriving DecidableEq, Repr

/-- Runtime view of the first constructor argument: either an actual
`Screen` instance or some other Python object (tagged by a string).
`isinstance(screen_obj, Screen)` holds exactly on the first case. -/
inductive PyObject where
  | screen (s : Screen)
  | other (tag : String)
  deriving DecidableEq, Repr

/-- Which tk primitive a variant constructs. -/
inductive WidgetKind where
  | button
  | label
  | entry
  deriving DecidableEq, Repr

/-- Data handed to `PILImage.open`: an in-memory byte buffer
(`io.BytesIO(resp.content)`) or a local file path. -/
inductive ImgData where
  | bytes (b : List Nat)
  | path (p : String)
  deriving DecidableEq, Repr

/-- Observable side effects performed during construction, in order.
`K` is the type of packargs keys, `V` the type of dynamic values. -/
inductive Event (K V : Type) where
  | httpGet (url : String)
  | decodeImage (data : ImgData)
  | makePhotoImage (w h : ℤ)
  | createWidget (kind : WidgetKind) (kwargs : List (String × V))
  | packCall (opts : List (K × V))
  deriving DecidableEq, Repr

/-- A native tk widget: its parent container, the option key/values it
currently holds, the options its `pack` call received (if packed), an
alive flag, and (for entries) the current text content. -/
structure NativeWidget (K V : Type) where
  parent : Nat
  kwargs : List (String × V)
  packed : Option (List (K × V))
  alive : Bool
  text : String
  deriving DecidableEq, Repr

/-- A freshly created native widget under `root`, constructed with
`kwargs` and packed with options `opts` (entries are created alive,
with empty text). -/
def newWidget {K V : Type} (root : Nat) (kwargs : List (String × V))
    (opts : List (K × V)) : NativeWidget K V :=
  { parent := root, kwargs := kwargs, packed := some opts, alive := true, text := "" }

/-- The comprehension `{k: v for k, v in packargs.items() if v is not None}`: drop the
entries whose value is the `None` sentinel, keep the rest unchanged. -/
def filterPack {K V : Type} (packargs : List (K × Option V)) : List (K × V) :=
  packargs.filterMap (fun kv => kv.2.map (fun v => (kv.1, v)))

/-- Set one option key to a value in a native widget's option list
(update in place if present, append otherwise). -/
def setOpt {V : Type} [DecidableEq V] (cfg : List (String × V)) (k : String) (v : V) :
    List (String × V) :=
  if cfg.any (fun kv => kv.1 = k) then
    cfg.map (fun kv => if kv.1 = k then (k, v) else kv)
  else cfg ++ [(k, v)]

/-- Apply a kwargs mapping to a native widget's stored options. -/
def applyKwargs {V : Type} [DecidableEq V] (cfg : List (String × V))
    (kwargs : List (String × V)) : List (String × V) :=
  kwargs.foldl (fun c kv => setOpt c kv.1 kv.2) cfg

/-- Native `widget.config(**kwargs)`: the toolkit validates each option
with its own predicate `valid` (unknown to this module) and either
rejects with a Tcl error or stores every pair unchanged. -/
def tkConfigure {K V : Type} [DecidableEq V] (valid : String → V → Bool)
    (w : NativeWidget K V) (kwargs : List (String × V)) :
    Except PyError (NativeWidget K V) :=
  if kwargs.all (fun kv => valid kv.1 kv.2) then
    .ok { w with kwargs := applyKwargs w.kwargs kwargs }
  else
    .error .tclError

/-- Native `widget.destroy()`: kills the widget; whether a second
destroy of a dead widget errors is the host toolkit's business, so it
is a parameter `errOnDouble`. -/
def tkDestroy {K V : Type} (errOnDouble : Bool) (w : NativeWidget K V) :
    Except PyError (NativeWidget K V) :=
  if w.alive then .ok { w with alive := false }
  else if errOnDouble then .error .tclError
  else .ok w

/-- The message of the TypeError every constructor raises. -/
def screenTypeErrorMsg : String := "screen_obj must be an instance of Screen"

/-- State of a constructed `Button`: it owns one native button. -/
structure ButtonW (K V : Type) where
  button_obj : NativeWidget K V
  deriving DecidableEq, Repr

/-- State of a constructed `Text`: it owns one native label. -/
structure TextW (K V : Type) where
  text_obj : NativeWidget K V
  deriving DecidableEq, Repr

/-- State of a constructed `Input`: it owns one native entry. -/
structure InputW (K V : Type) where
  input_obj : NativeWidget K V
  deriving DecidableEq, Repr

/-- Model of `Button.__init__`: isinstance check, default `packargs` to `{}`,
create the native button with the forwarded kwargs, pack it with the
`None`-filtered packargs.  Returns the events performed and the result. -/
def buttonInit {K V : Type} (arg : PyObject)
    (packargs : Option (List (K × Option V))) (kwargs : List (String × V)) :
    List (Event K V) × Except PyError (ButtonW K V) :=
  match arg with
  | .other _ => ([], .error (.typeError screenTypeErrorMsg))
  | .screen s =>
    let pa := packargs.getD []
    let opts := filterPack pa
    ([.createWidget .button kwargs, .packCall opts], .ok ⟨newWidget s.root kwargs opts⟩)

/-- Model of `Text.__init__`: same shape as `Button.__init__` over a native label. -/
def textInit {K V : Type} (arg : PyObject)
    (packargs : Option (List (K × Option V))) (kwargs : List (String × V)) :
    List (Event K V) × Except PyError (TextW K V) :=
  match arg with
  | .other _ => ([], .error (.typeError screenTypeErrorMsg))
  | .screen s =>
    let pa := packargs.getD []
    let opts := filterPack pa
    ([.createWidget .label kwargs, .packCall opts], .ok ⟨newWidget s.root kwargs opts⟩)

/-- Model of `Input.__init__`: same shape over a native entry (empty initial text). -/
def inputInit {K V : Type} (arg : PyObject)
    (packargs : Option (List (K × Option V))) (kwargs : List (String × V)) :
    List (Event K V) × Except PyError (InputW K V) :=
  match arg with
  | .other _ => ([], .error (.typeError screenTypeErrorMsg))
  | .screen s =>
    let pa := packargs.getD []
    let opts := filterPack pa
    ([.createWidget .entry kwargs, .packCall opts], .ok ⟨newWidget s.root kwargs opts⟩)

/-- The HTTP collaborator (`requests`): each URL has a status code and
response content bytes. -/
structure HttpEnv where
  status : String → Nat
  content : String → List Nat

/-- The image decoder collaborator (`PIL.Image.open`): decoding data
yields an image of some size `(w, h)`, or fails (`none`). -/
structure DecodeEnv where
  decode : ImgData → Option (ℤ × ℤ)

/-- An in-memory PIL image: all the claims depend on is its size. -/
structure PILImg where
  w : ℤ
  h : ℤ
  deriving DecidableEq, Repr

/-- The toolkit-displayable resource (`ImageTk.PhotoImage`) made from a
PIL image. -/
structure PhotoImage where
  w : ℤ
  h : ℤ
  deriving DecidableEq, Repr

/-- State of a constructed `Image`: the native label plus the owned
`_photo_image` field that keeps the decoded resource alive. -/
structure ImageW (K V : Type) where
  image_obj : NativeWidget K V
  photo_image : PhotoImage
  deriving DecidableEq, Repr

/-- Python `s.startswith(pre)`: prefix test on the character
sequences of the two strings. -/
def strStartsWith (s pre : String) : Bool :=
  pre.data.isPrefixOf s.data

/-- The check `source.startswith("http://") or source.startswith("https://")`. -/
def isUrl (source : String) : Bool :=
  strStartsWith source "http://" || strStartsWith source "https://"

/-- Model of `requests.get` plus `raise_for_status`: 4xx/5xx statuses raise
`HTTPError`; otherwise the response bytes become the image data.  A
non-URL source is used as a local path directly, with no HTTP event. -/
def fetchSource {K V : Type} (henv : HttpEnv) (source : String) :
    List (Event K V) × Except PyError ImgData :=
  if isUrl source then
    if 400 ≤ henv.status source ∧ henv.status source < 600 then
      ([.httpGet source], .error .httpError)
    else
      ([.httpGet source], .ok (.bytes (henv.content source)))
  else
    ([], .ok (.path source))

/-- Python truthiness of an `Optional[int]`: `None` and `0` are falsy. -/
def truthy : Option ℤ → Bool
  | none => false
  | some n => n != 0

/-- The spec's reading of `int(orig * (given / orig))` as exact
arithmetic: the rational `a * (b / c)` equals `(a * b) / c`, and
`int(...)` truncates toward zero, which on integers is `Int.tdiv`.
This follows the spec's formula literally; the code evaluates the
expression with binary64 floats instead (`floatTruncScale` below), and
the two disagree, e.g. at `a = c = 100`, `b = 29`. -/
def exactTruncScale (a b c : ℤ) : ℤ :=
  (a * b).tdiv c

/-- Floor of the base-2 logarithm, with a fuel bound on the recursion
depth: fuel 1100 is exact for every `n < 2 ^ 1100`, far beyond the
ranges the theorems use. -/
def ilog2Fuel : ℕ → ℕ → ℕ
  | 0, _ => 0
  | fuel + 1, n => if n < 2 then 0 else ilog2Fuel fuel (n / 2) + 1

/-- Floor of the base-2 logarithm of a natural number. -/
def ilog2 (n : ℕ) : ℕ :=
  ilog2Fuel 1100 n

/-- Whether the ratio `n / d` is at least `2 ^ x` (for `d > 0`). -/
def ratGe2Pow (n d : ℕ) (x : ℤ) : Bool :=
  if 0 ≤ x then decide (d * 2 ^ x.toNat ≤ n) else decide (d ≤ n * 2 ^ (-x).toNat)

/-- The binade of `n / d` for `n, d > 0`: the unique `e` with
`2 ^ e ≤ n / d < 2 ^ (e + 1)`.  The floor-log difference is off by at
most one, so it is corrected by direct comparison. -/
def findExp (n d : ℕ) : ℤ :=
  let e0 : ℤ := (ilog2 n : ℤ) - (ilog2 d : ℤ)
  if ratGe2Pow n d (e0 + 1) then e0 + 1
  else if ratGe2Pow n d e0 then e0
  else e0 - 1

/-- Round the nonnegative rational `n / d` (with `d > 0`) to the
nearest IEEE-754 binary64 value, ties to even.  The result `(m, e)`
denotes `m * 2 ^ e` with `2 ^ 52 ≤ m < 2 ^ 53` (or `m = 0`).  The
exponent is unbounded, so this agrees with binary64 exactly whenever
the result lies in the normal range (no overflow, no subnormals) —
guaranteed by the dimension bounds the theorems carry. -/
def roundPosRat (n d : ℕ) : ℕ × ℤ :=
  if n = 0 then (0, 0)
  else
    let e := findExp n d
    let shift : ℤ := 52 - e
    let N := if 0 ≤ shift then n * 2 ^ shift.toNat else n
    let D := if 0 ≤ shift then d else d * 2 ^ (-shift).toNat
    let q := N / D
    let r := N % D
    let m := if 2 * r < D then q
             else if D < 2 * r then q + 1
             else if q % 2 = 0 then q else q + 1
    if m = 2 ^ 53 then (2 ^ 52, e - 51) else (m, e - 52)

/-- Round the nonnegative dyadic `M * 2 ^ e` to binary64. -/
def roundPosDyadic (M : ℕ) (e : ℤ) : ℕ × ℤ :=
  if 0 ≤ e then roundPosRat (M * 2 ^ e.toNat) 1 else roundPosRat M (2 ^ (-e).toNat)

/-- Truncate the nonnegative dyadic `m * 2 ^ e` toward zero. -/
def truncDyadic (m : ℕ) (e : ℤ) : ℕ :=
  if 0 ≤ e then m * 2 ^ e.toNat else m / 2 ^ (-e).toNat

/-- Python's `int(a * (b / c))` as the code executes it: `b / c` is the
correctly rounded binary64 quotient of the two integers, the
multiplication by `a` is one binary64 multiplication, and `int`
truncates toward zero.  Signs come out by the symmetry of IEEE
rounding.  Faithful whenever `|a| < 2 ^ 53` (so Python's int-to-float
conversion before the multiplication is exact) and the intermediate
values stay in binary64's normal range; the theorems' `2 ^ 30` bounds
guarantee both.  (`c = 0` is Python's `ZeroDivisionError`, outside
every claim; the model returns 0 there.) -/
def floatTruncScale (a b c : ℤ) : ℤ :=
  if c = 0 then 0
  else
    let q := roundPosRat b.natAbs c.natAbs
    let p := roundPosDyadic (a.natAbs * q.1) q.2
    let t : ℕ := truncDyadic p.1 p.2
    if a * b * c < 0 then -(t : ℤ) else (t : ℤ)

/-- The dimension recomputation of `Image.__init__`:
`if width and not height: height = int(orig_h * (width / orig_w))`
`elif height and not width: width = int(orig_w * (height / orig_h))`,
with the right-hand sides evaluated in binary64 as Python does. -/
def resizeDims (origW origH : ℤ) (width height : Option ℤ) :
    Option ℤ × Option ℤ :=
  if truthy width && !truthy height then
    (width, some (floatTruncScale origH (width.getD 0) origW))
  else if truthy height && !truthy width then
    (some (floatTruncScale origW (height.getD 0) origH), height)
  else
    (width, height)

/-- The step `if width or height: ... pil_img = pil_img.resize((width, height))`.
Inside the branch both recomputed dimensions are necessarily `some`
(the `getD 0` defaults are never taken).  PIL's `resize` raises
`ValueError` ("height and width must be > 0") when a target dimension
is not positive; otherwise it installs the new size. -/
def applyResize (img : PILImg) (width height : Option ℤ) :
    Except PyError PILImg :=
  if truthy width || truthy height then
    let wh := resizeDims img.w img.h width height
    if wh.1.getD 0 ≤ 0 ∨ wh.2.getD 0 ≤ 0 then .error .valueError
    else .ok ⟨wh.1.getD 0, wh.2.getD 0⟩
  else
    .ok img

/-- Model of `Image.__init__`: isinstance check, fetch-or-path, decode, optional
aspect-preserving resize, `PhotoImage` conversion, native label
creation (retaining the photo image), pack with `None`-filtered
packargs.  Fail-fast: each failing step stops the sequence, and the
trace records exactly the effects performed up to that point. -/
def imageInit {K V : Type} (henv : HttpEnv) (denv : DecodeEnv)
    (arg : PyObject) (source : String)
    (packargs : Option (List (K × Option V)))
    (width height : Option ℤ) (kwargs : List (String × V)) :
    List (Event K V) × Except PyError (ImageW K V) :=
  match arg with
  | .other _ => ([], .error (.typeError screenTypeErrorMsg))
  | .screen s =>
    let pa := packargs.getD []
    match fetchSource henv source with
    | (tr, .error e) => (tr, .error e)
    | (tr, .ok data) =>
      match denv.decode data with
      | none => (tr ++ [.decodeImage data], .error .decodeError)
      | some (ow, oh) =>
        match applyResize ⟨ow, oh⟩ width height with
        | .error e => (tr ++ [.decodeImage data], .error e)
        | .ok pil2 =>
          let photo : PhotoImage := ⟨pil2.w, pil2.h⟩
          let opts := filterPack pa
          (tr ++ [.decodeImage data, .makePhotoImage pil2.w pil2.h,
                  .createWidget .label kwargs, .packCall opts],
           .ok ⟨newWidget s.root kwargs opts, photo⟩)

/-- Model of `Button.config(**kwargs)`: forwards the kwargs to the native
widget's own configure, unchanged and unvalidated. -/
def buttonConfig {K V : Type} [DecidableEq V] (valid : String → V → Bool)
    (b : ButtonW K V) (kwargs : List (String × V)) :
    Except PyError (ButtonW K V) :=
  (tkConfigure valid b.button_obj kwargs).map (fun w => ⟨w⟩)

/-- Model of `Text.config(**kwargs)`. -/
def textConfig {K V : Type} [DecidableEq V] (valid : String → V → Bool)
    (t : TextW K V) (kwargs : List (String × V)) :
    Except PyError (TextW K V) :=
  (tkConfigure valid t.text_obj kwargs).map (fun w => ⟨w⟩)

/-- Model of `Image.config(**kwargs)`: configures the native label only. -/
def imageConfig {K V : Type} [DecidableEq V] (valid : String → V → Bool)
    (i : ImageW K V) (kwargs : List (String × V)) :
    Except PyError (ImageW K V) :=
  (tkConfigure valid i.image_obj kwargs).map (fun w => ⟨w, i.photo_image⟩)

/-- Model of `Input.config(**kwargs)`. -/
def inputConfig {K V : Type} [DecidableEq V] (valid : String → V → Bool)
    (i : InputW K V) (kwargs : List (String × V)) :
    Except PyError (InputW K V) :=
  (tkConfigure valid i.input_obj kwargs).map (fun w => ⟨w⟩)

/-- Model of `Button.destroy()`: one unguarded `self.button_obj.destroy()`. -/
def buttonDestroy {K V : Type} (errOnDouble : Bool) (b : ButtonW K V) :
    Except PyError (ButtonW K V) :=
  (tkDestroy errOnDouble b.button_obj).map (fun w => ⟨w⟩)

/-- Model of `Text.destroy()`. -/
def textDestroy {K V : Type} (errOnDouble : Bool) (t : TextW K V) :
    Except PyError (TextW K V) :=
  (tkDestroy errOnDouble t.text_obj).map (fun w => ⟨w⟩)

/-- Model of `Image.destroy()`: one unguarded `self.image_obj.destroy()`; the
`_photo_image` field is not touched. -/
def imageDestroy {K V : Type} (errOnDouble : Bool) (i : ImageW K V) :
    Except PyError (ImageW K V) :=
  (tkDestroy errOnDouble i.image_obj).map (fun w => ⟨w, i.photo_image⟩)

/-- Model of `Input.destroy()`. -/
def inputDestroy {K V : Type} (errOnDouble : Bool) (i : InputW K V) :
    Except PyError (InputW K V) :=
  (tkDestroy errOnDouble i.input_obj).map (fun w => ⟨w⟩)

/-- Model of `Input.get()`: returns `self.input_obj.get()`, the current text of
the native entry; the state is untouched. -/
def inputGet {K V : Type} (i : InputW K V) : String × InputW K V :=
  (i.input_obj.text, i)

/-- Native-layer update of an entry's text content (e.g. via its text
variable); external to the wrapper, used to state the round-trip. -/
def setEntryText {K V : Type} (i : InputW K V) (s : String) : InputW K V :=
  ⟨{ i.input_obj with text := s }⟩

/-- A concrete HTTP collaborator whose every response is 200 with one
content byte. -/
def sampleHttpOk : HttpEnv :=
  ⟨fun _ => 200, fun _ => [7]⟩

/-- A concrete HTTP collaborator whose every response is 404. -/
def sampleHttp404 : HttpEnv :=
  ⟨fun _ => 404, fun _ => []⟩

/-- A concrete decoder for which every datum is a 200×100 image. -/
def sampleDecode200 : DecodeEnv :=
  ⟨fun _ => some (200, 100)⟩

/-- A concrete decoder for which every datum is a 100×100 image. -/
def sampleDecode100 : DecodeEnv :=
  ⟨fun _ => some (100, 100)⟩

/-- A concrete fresh native widget over `K = V = Nat`. -/
def sampleWidget : NativeWidget Nat Nat :=
  newWidget 0 [] []

/-- A concrete constructed button. -/
def sampleButton : ButtonW Nat Nat :=
  ⟨sampleWidget⟩

/-- A concrete constructed text label. -/
def sampleText : TextW Nat Nat :=
  ⟨sampleWidget⟩

/-- A concrete constructed input. -/
def sampleInput : InputW Nat Nat :=
  ⟨sampleWidget⟩

/-- A concrete constructed image over a 200×100 photo. -/
def sampleImage : ImageW Nat Nat :=
  ⟨sampleWidget, ⟨200, 100⟩⟩

/-! Supporting lemmas -/

/-- Membership in the `None`-filtered packargs: exactly the entries
with a real value survive, key and value unchanged. -/
theorem filterPack_mem {K V : Type} (pa : List (K × Option V)) (k : K) (v : V) :
    (k, v) ∈ filterPack pa ↔ (k, some v) ∈ pa := by
  simp only [filterPack, List.mem_filterMap, Option.map_eq_some']
  constructor
  · rintro ⟨⟨k', ov⟩, hmem, v', hov, heq⟩
    cases heq
    cases hov
    exact hmem
  · intro hmem
    exact ⟨(k, some v), hmem, v, rfl, rfl⟩

/-- Shape of a successful `Image` construction: the screen argument is
a real screen, the fetched data decodes to some size, the resulting
native label is freshly created with the forwarded kwargs and the
filtered packargs, and the retained photo image has the
(possibly resized) size. -/
theorem imageInit_ok_shape {K V : Type} (henv : HttpEnv) (denv : DecodeEnv)
    (s : Screen) (source : String) (packargs : Option (List (K × Option V)))
    (width height : Option ℤ) (kwargs : List (String × V))
    (data : ImgData) (ow oh : ℤ) (pil2 : PILImg)
    (hfetch : (fetchSource henv source : List (Event K V) × Except PyError ImgData).2
      = .ok data)
    (hdec : denv.decode data = some (ow, oh))
    (hres : applyResize ⟨ow, oh⟩ width height = .ok pil2) :
    imageInit henv denv (.screen s) source packargs width height kwargs
      = ((fetchSource henv source : List (Event K V) × Except PyError ImgData).1 ++
          [.decodeImage data,
           .makePhotoImage pil2.w pil2.h,
           .createWidget .label kwargs,
           .packCall (filterPack (packargs.getD []))],
         .ok ⟨newWidget s.root kwargs (filterPack (packargs.getD [])),
              ⟨pil2.w, pil2.h⟩⟩) := by
  rcases hfs : (fetchSource henv source : List (Event K V) × Except PyError ImgData)
    with ⟨tr, res⟩
  rw [hfs] at hfetch
  simp only at hfetch
  subst hfetch
  simp only [imageInit, hfs, hdec, hres]

/-- Inversion of a successful `Image` construction: there is fetched
data that decodes, the state is the fresh label plus the resized photo,
and the trace ends with the pack call on the filtered packargs. -/
theorem imageInit_ok_inv {K V : Type} (henv : HttpEnv) (denv : DecodeEnv)
    (s : Screen) (source : String) (packargs : Option (List (K × Option V)))
    (width height : Option ℤ) (kwargs : List (String × V)) (st : ImageW K V)
    (hok : (imageInit henv denv (.screen s) source packargs width height kwargs).2
      = .ok st) :
    ∃ data ow oh pil2,
      (fetchSource henv source : List (Event K V) × Except PyError ImgData).2 = .ok data
      ∧ denv.decode data = some (ow, oh)
      ∧ applyResize ⟨ow, oh⟩ width height = .ok pil2
      ∧ st = ⟨newWidget s.root kwargs (filterPack (packargs.getD [])),
              ⟨pil2.w, pil2.h⟩⟩
      ∧ Event.packCall (filterPack (packargs.getD []))
          ∈ (imageInit henv denv (.screen s) source packargs width height kwargs).1 := by
  rcases hfs : (fetchSource henv source : List (Event K V) × Except PyError ImgData)
    with ⟨tr, res⟩
  cases res with
  | error e =>
    rw [imageInit, hfs] at hok
    simp at hok
  | ok data =>
    rcases hdec : denv.decode data with _ | ⟨ow, oh⟩
    · rw [imageInit, hfs] at hok
      simp [hdec] at hok
    · rcases hres : applyResize (⟨ow, oh⟩ : PILImg) width height with e | pil2
      · rw [imageInit, hfs] at hok
        simp [hdec, hres] at hok
      · refine ⟨data, ow, oh, pil2, rfl, hdec, hres, ?_, ?_⟩
        · rw [imageInit, hfs] at hok
          simp only [hdec, hres, Except.ok.injEq] at hok
          exact hok.symm
        · rw [imageInit, hfs]
          simp [hdec, hres]

/-! Claim theorems -/

/-- C1: for every widget variant (Button, Text, Image, Input),
constructing with a first argument that is not a `Screen` instance
yields the `TypeError` and an empty effect trace: no native widget is
created, and for `Image` no fetch, decode, photo image or label
happens. -/
theorem c1_nonscreen_typeerror {K V : Type} (tag : String)
    (packargs : Option (List (K × Option V))) (kwargs : List (String × V))
    (henv : HttpEnv) (denv : DecodeEnv) (source : String)
    (width height : Option ℤ) :
    buttonInit (.other tag) packargs kwargs
      = (([] : List (Event K V)), .error (.typeError screenTypeErrorMsg))
    ∧ textInit (.other tag) packargs kwargs
      = (([] : List (Event K V)), .error (.typeError screenTypeErrorMsg))
    ∧ inputInit (.other tag) packargs kwargs
      = (([] : List (Event K V)), .error (.typeError screenTypeErrorMsg))
    ∧ imageInit henv denv (.other tag) source packargs width height kwargs
      = (([] : List (Event K V)), .error (.typeError screenTypeErrorMsg)) :=
  ⟨rfl, rfl, rfl, rfl⟩

/-- C2: for every widget variant, exactly the packargs entries whose
value is the `None` sentinel are dropped from the options given to the
pack call, and every other entry passes through with key and value
unchanged: the three simple constructors pack precisely
`filterPack pa`, a successfully constructed `Image` is packed with
precisely `filterPack pa`, and membership in `filterPack pa` is
equivalent to membership with a non-`None` value in `pa`. -/
theorem c2_packargs_filtered {K V : Type} (henv : HttpEnv) (denv : DecodeEnv)
    (s : Screen) (pa : List (K × Option V)) (kwargs : List (String × V))
    (source : String) (width height : Option ℤ) (st : ImageW K V)
    (hok : (imageInit henv denv (.screen s) source (some pa) width height kwargs).2
      = .ok st) :
    (∀ k v, (k, v) ∈ filterPack pa ↔ (k, some v) ∈ pa)
    ∧ buttonInit (.screen s) (some pa) kwargs
      = ([.createWidget .button kwargs, .packCall (filterPack pa)],
         .ok ⟨newWidget s.root kwargs (filterPack pa)⟩)
    ∧ textInit (.screen s) (some pa) kwargs
      = ([.createWidget .label kwargs, .packCall (filterPack pa)],
         .ok ⟨newWidget s.root kwargs (filterPack pa)⟩)
    ∧ inputInit (.screen s) (some pa) kwargs
      = ([.createWidget .entry kwargs, .packCall (filterPack pa)],
         .ok ⟨newWidget s.root kwargs (filterPack pa)⟩)
    ∧ st.image_obj.packed = some (filterPack pa)
    ∧ Event.packCall (filterPack pa)
        ∈ (imageInit henv denv (.screen s) source (some pa) width height kwargs).1 := by
  obtain ⟨data, ow, oh, pil2, hfetch, hdec, hres, hst, hmem⟩ :=
    imageInit_ok_inv henv denv s source (some pa) width height kwargs st hok
  refine ⟨fun k v => filterPack_mem pa k v, rfl, rfl, rfl, ?_, hmem⟩
  rw [hst]
  rfl

/-- C5: `Input.get()` returns exactly the text currently held by the
native entry and changes no state: after the entry's text is set to
`str`, `get` returns `str`, and the state after `get` is the state
before. -/
theorem c5_input_get_roundtrip {K V : Type} (i : InputW K V) (str : String) :
    inputGet (setEntryText i str) = (str, setEntryText i str)
    ∧ (inputGet i).1 = i.input_obj.text
    ∧ (inputGet i).2 = i :=
  ⟨rfl, rfl, rfl⟩

/-- C10: `Image.destroy()` touches only the native label: on success
the retained `_photo_image` field is unchanged (still set), and the
label differs only in its alive flag. -/
theorem c10_destroy_keeps_photo {K V : Type} (e : Bool) (im im' : ImageW K V)
    (h : imageDestroy e im = .ok im') :
    im'.photo_image = im.photo_image
    ∧ im'.image_obj.parent = im.image_obj.parent
    ∧ im'.image_obj.kwargs = im.image_obj.kwargs
    ∧ im'.image_obj.packed = im.image_obj.packed
    ∧ im'.image_obj.text = im.image_obj.text
    ∧ im'.image_obj.alive = false := by
  rw [imageDestroy, tkDestroy] at h
  by_cases ha : im.image_obj.alive = true
  · rw [if_pos ha] at h
    cases h
    exact ⟨rfl, rfl, rfl, rfl, rfl, rfl⟩
  · rw [if_neg ha] at h
    cases e with
    | true =>
      rw [if_pos rfl] at h
      simp [Except.map] at h
    | false =>
      rw [if_neg (by simp)] at h
      cases h
      exact ⟨rfl, rfl, rfl, rfl, rfl, by simpa using ha⟩

/-- Truthiness of a present integer: true exactly when it is nonzero. -/
theorem truthy_some_iff (n : ℤ) : truthy (some n) = true ↔ n ≠ 0 := by
  simp [truthy]

/-- C3 (amended): over an original image of size (200,100), width=100
alone resizes to height 50 and height=50 alone resizes to width 100
(both binary64-exact).  In general, when exactly one positive dimension
is given (bounds of `2 ^ 30` keep every intermediate in binary64's
normal range), the other is `int()` of the binary64 evaluation of
`original_dim * (given_dim / original_dim)` — which can fall below the
exact truncation of that ratio — and the resize succeeds when the
computed dimension is positive, while a negative given dimension makes
the native resize raise `ValueError`. -/
theorem c3_aspect_preserving_resize {K V : Type} (henv : HttpEnv) (denv : DecodeEnv)
    (s : Screen) (source : String) (packargs : Option (List (K × Option V)))
    (kwargs : List (String × V))
    (hurl : isUrl source = false)
    (hdec : denv.decode (.path source) = some (200, 100)) :
    (imageInit (K := K) (V := V) henv denv (.screen s) source packargs
        (some 100) none kwargs).2
      = .ok ⟨newWidget s.root kwargs (filterPack (packargs.getD [])), ⟨100, 50⟩⟩
    ∧ (imageInit (K := K) (V := V) henv denv (.screen s) source packargs
        none (some 50) kwargs).2
      = .ok ⟨newWidget s.root kwargs (filterPack (packargs.getD [])), ⟨100, 50⟩⟩
    ∧ (∀ (denv2 : DecodeEnv) (ow oh wv : ℤ),
        denv2.decode (.path source) = some (ow, oh) →
        0 < ow → ow ≤ 2 ^ 30 → 0 < oh → oh ≤ 2 ^ 30 → 0 < wv → wv ≤ 2 ^ 30 →
        1 ≤ floatTruncScale oh wv ow →
        (imageInit (K := K) (V := V) henv denv2 (.screen s) source packargs
            (some wv) none kwargs).2
          = .ok ⟨newWidget s.root kwargs (filterPack (packargs.getD [])),
                 ⟨wv, floatTruncScale oh wv ow⟩⟩)
    ∧ (∀ (denv2 : DecodeEnv) (ow oh hv : ℤ),
        denv2.decode (.path source) = some (ow, oh) →
        0 < ow → ow ≤ 2 ^ 30 → 0 < oh → oh ≤ 2 ^ 30 → 0 < hv → hv ≤ 2 ^ 30 →
        1 ≤ floatTruncScale ow hv oh →
        (imageInit (K := K) (V := V) henv denv2 (.screen s) source packargs
            none (some hv) kwargs).2
          = .ok ⟨newWidget s.root kwargs (filterPack (packargs.getD [])),
                 ⟨floatTruncScale ow hv oh, hv⟩⟩)
    ∧ (∀ (denv2 : DecodeEnv) (ow oh wv : ℤ),
        denv2.decode (.path source) = some (ow, oh) → wv < 0 →
        (imageInit (K := K) (V := V) henv denv2 (.screen s) source packargs
            (some wv) none kwargs).2
          = .error .valueError) := by
  refine ⟨?_, ?_, ?_, ?_, ?_⟩
  · rw [imageInit, fetchSource, if_neg (by simp [hurl])]
    have hres : applyResize (⟨200, 100⟩ : PILImg) (some 100) none = .ok ⟨100, 50⟩ := rfl
    simp only [hdec, hres]
  · rw [imageInit, fetchSource, if_neg (by simp [hurl])]
    have hres : applyResize (⟨200, 100⟩ : PILImg) none (some 50) = .ok ⟨100, 50⟩ := rfl
    simp only [hdec, hres]
  · intro denv2 ow oh wv hdec2 how1 how2 hoh1 hoh2 hwv1 hwv2 hge
    rw [imageInit, fetchSource, if_neg (by simp [hurl])]
    have ht : truthy (some wv) = true := (truthy_some_iff wv).mpr hwv1.ne'
    have h1 : ¬ wv ≤ 0 := not_le.mpr hwv1
    have h2 : ¬ floatTruncScale oh wv ow ≤ 0 :=
      not_le.mpr (lt_of_lt_of_le zero_lt_one hge)
    have hres : applyResize (⟨ow, oh⟩ : PILImg) (some wv) none
        = .ok ⟨wv, floatTruncScale oh wv ow⟩ := by
      simp [applyResize, resizeDims, ht, truthy, h1, h2, hwv1.ne']
    simp only [hdec2, hres]
  · intro denv2 ow oh hv hdec2 how1 how2 hoh1 hoh2 hhv1 hhv2 hge
    rw [imageInit, fetchSource, if_neg (by simp [hurl])]
    have ht : truthy (some hv) = true := (truthy_some_iff hv).mpr hhv1.ne'
    have h1 : ¬ hv ≤ 0 := not_le.mpr hhv1
    have h2 : ¬ floatTruncScale ow hv oh ≤ 0 :=
      not_le.mpr (lt_of_lt_of_le zero_lt_one hge)
    have hres : applyResize (⟨ow, oh⟩ : PILImg) none (some hv)
        = .ok ⟨floatTruncScale ow hv oh, hv⟩ := by
      simp [applyResize, resizeDims, ht, truthy, h1, h2, hhv1.ne']
    simp only [hdec2, hres]
  · intro denv2 ow oh wv hdec2 hneg
    rw [imageInit, fetchSource, if_neg (by simp [hurl])]
    have ht : truthy (some wv) = true := (truthy_some_iff wv).mpr hneg.ne
    have hres : applyResize (⟨ow, oh⟩ : PILImg) (some wv) none
        = .error .valueError := by
      simp [applyResize, resizeDims, ht, truthy, hneg.le, hneg.ne]
    simp only [hdec2, hres]

/-- C3 counterexample: for a 100×100 original with width=29, the code's
binary64 evaluation `int(100 * (29 / 100))` gives height 28, while the
claim's exact truncation of `100 * (29 / 100)` is 29, so the
constructed image refutes the exact-truncation formula. -/
theorem c3_exact_truncation_counterexample :
    (imageInit (K := Nat) (V := Nat) sampleHttpOk sampleDecode100 (.screen ⟨0⟩)
        "a.png" none (some 29) none []).2
      = .ok ⟨newWidget 0 [] [], ⟨29, 28⟩⟩
    ∧ exactTruncScale 100 29 100 = 29
    ∧ (28 : ℤ) ≠ 29 :=
  ⟨rfl, rfl, by decide⟩

/-- C4: an `Image` constructed from a URL whose HTTP response has an
error status (4xx/5xx) raises the HTTP error, and the trace is the
single fetch: no decode, no photo image, no label creation, no pack. -/
theorem c4_http_error_no_label {K V : Type} (henv : HttpEnv) (denv : DecodeEnv)
    (s : Screen) (source : String) (packargs : Option (List (K × Option V)))
    (width height : Option ℤ) (kwargs : List (String × V))
    (hurl : isUrl source = true)
    (hlo : 400 ≤ henv.status source) (hhi : henv.status source < 600) :
    imageInit (K := K) (V := V) henv denv (.screen s) source packargs
        width height kwargs
      = ([Event.httpGet source], .error .httpError) := by
  rw [imageInit, fetchSource, if_pos hurl, if_pos ⟨hlo, hhi⟩]

/-- C6: source classification is a prefix check on the scheme: a
source starting with "http://" or "https://" is fetched over HTTP and
its response bytes go to the decoder; any other source goes to the
decoder directly as a path, with no HTTP fetch. -/
theorem c6_source_classification {K V : Type} (henv : HttpEnv) (denv : DecodeEnv)
    (s : Screen) (source : String) (packargs : Option (List (K × Option V)))
    (width height : Option ℤ) (kwargs : List (String × V))
    (hstatus : ¬(400 ≤ henv.status source ∧ henv.status source < 600)) :
    isUrl source = (strStartsWith source "http://" || strStartsWith source "https://")
    ∧ (isUrl source = true →
        (imageInit henv denv (.screen s) source packargs width height kwargs).1.head?
          = some (.httpGet source)
        ∧ Event.decodeImage (.bytes (henv.content source))
            ∈ (imageInit henv denv (.screen s) source packargs width height kwargs).1)
    ∧ (isUrl source = false →
        (∀ u, (Event.httpGet u : Event K V)
            ∉ (imageInit henv denv (.screen s) source packargs width height kwargs).1)
        ∧ Event.decodeImage (.path source)
            ∈ (imageInit henv denv (.screen s) source packargs width height kwargs).1) := by
  refine ⟨rfl, ?_, ?_⟩
  · intro hurl
    rw [imageInit, fetchSource, if_pos hurl, if_neg hstatus]
    rcases hd : denv.decode (.bytes (henv.content source)) with _ | ⟨ow, oh⟩
    · simp only [hd]
      exact ⟨rfl, by simp⟩
    · rcases hre : applyResize (⟨ow, oh⟩ : PILImg) width height with e | pil2
      · simp only [hd, hre]
        exact ⟨rfl, by simp⟩
      · simp only [hd, hre]
        exact ⟨rfl, by simp⟩
  · intro hfile
    rw [imageInit, fetchSource, if_neg (by simp [hfile])]
    rcases hd : denv.decode (.path source) with _ | ⟨ow, oh⟩
    · simp only [hd]
      exact ⟨by simp, by simp⟩
    · rcases hre : applyResize (⟨ow, oh⟩ : PILImg) width height with e | pil2
      · simp only [hd, hre]
        exact ⟨by simp, by simp⟩
      · simp only [hd, hre]
        exact ⟨by simp, by simp⟩

/-- C9: a dimension argument equal to 0 is falsy, so it behaves as if
that dimension were not given: width=0 with no height performs no
resize at all (identical to giving neither), and width=0 with a
positive height recomputes the width from the aspect ratio — the
binary64 evaluation of `orig_w * (height / orig_h)` truncated —
instead of resizing to width 0 (bounds of `2 ^ 30` keep every
intermediate in binary64's normal range, and the recomputed width must
be positive for the native resize to accept it). -/
theorem c9_zero_dimension_falsy {K V : Type} (henv : HttpEnv) (denv : DecodeEnv)
    (s : Screen) (source : String) (packargs : Option (List (K × Option V)))
    (kwargs : List (String × V)) (ow oh : ℤ)
    (hurl : isUrl source = false)
    (hdec : denv.decode (.path source) = some (ow, oh)) :
    imageInit (K := K) (V := V) henv denv (.screen s) source packargs
        (some 0) none kwargs
      = imageInit (K := K) (V := V) henv denv (.screen s) source packargs
          none none kwargs
    ∧ (imageInit (K := K) (V := V) henv denv (.screen s) source packargs
        (some 0) none kwargs).2
      = .ok ⟨newWidget s.root kwargs (filterPack (packargs.getD [])), ⟨ow, oh⟩⟩
    ∧ (∀ hv : ℤ,
        0 < ow → ow ≤ 2 ^ 30 → 0 < oh → oh ≤ 2 ^ 30 → 0 < hv → hv ≤ 2 ^ 30 →
        1 ≤ floatTruncScale ow hv oh →
        (imageInit (K := K) (V := V) henv denv (.screen s) source packargs
            (some 0) (some hv) kwargs).2
          = .ok ⟨newWidget s.root kwargs (filterPack (packargs.getD [])),
                 ⟨floatTruncScale ow hv oh, hv⟩⟩) := by
  refine ⟨?_, ?_, ?_⟩
  · rw [imageInit, imageInit]
    rcases hfs : (fetchSource henv source : List (Event K V) × Except PyError ImgData)
      with ⟨tr, res⟩
    cases res with
    | error e => rfl
    | ok data =>
      rcases hd : denv.decode data with _ | ⟨ow2, oh2⟩
      · rfl
      · rfl
  · rw [imageInit, fetchSource, if_neg (by simp [hurl])]
    simp only [hdec]
    rfl
  · intro hv how1 how2 hoh1 hoh2 hhv1 hhv2 hge
    rw [imageInit, fetchSource, if_neg (by simp [hurl])]
    have ht : truthy (some hv) = true := (truthy_some_iff hv).mpr hhv1.ne'
    have h1 : ¬ hv ≤ 0 := not_le.mpr hhv1
    have h2 : ¬ floatTruncScale ow hv oh ≤ 0 :=
      not_le.mpr (lt_of_lt_of_le zero_lt_one hge)
    have hres : applyResize (⟨ow, oh⟩ : PILImg) (some 0) (some hv)
        = .ok ⟨floatTruncScale ow hv oh, hv⟩ := by
      simp [applyResize, resizeDims, ht, truthy, h1, h2, hhv1.ne']
    simp only [hdec, hres]

/-- C7: for every widget variant, `config` forwards the given options
to the native widget unchanged and performs no validation of its own:
it fails (with the native error) exactly when the native layer rejects
some option, and on success the native widget holds exactly the
forwarded pairs (for `Image`, the photo image is untouched). -/
theorem c7_config_passthrough {K V : Type} [DecidableEq V] (valid : String → V → Bool)
    (b : ButtonW K V) (t : TextW K V) (im : ImageW K V) (inp : InputW K V)
    (kwargs : List (String × V)) :
    (buttonConfig valid b kwargs = .error .tclError
        ↔ ¬ kwargs.all (fun kv => valid kv.1 kv.2) = true)
    ∧ (kwargs.all (fun kv => valid kv.1 kv.2) = true →
        buttonConfig valid b kwargs
          = .ok ⟨{ b.button_obj with kwargs := applyKwargs b.button_obj.kwargs kwargs }⟩)
    ∧ (textConfig valid t kwargs = .error .tclError
        ↔ ¬ kwargs.all (fun kv => valid kv.1 kv.2) = true)
    ∧ (kwargs.all (fun kv => valid kv.1 kv.2) = true →
        textConfig valid t kwargs
          = .ok ⟨{ t.text_obj with kwargs := applyKwargs t.text_obj.kwargs kwargs }⟩)
    ∧ (imageConfig valid im kwargs = .error .tclError
        ↔ ¬ kwargs.all (fun kv => valid kv.1 kv.2) = true)
    ∧ (kwargs.all (fun kv => valid kv.1 kv.2) = true →
        imageConfig valid im kwargs
          = .ok ⟨{ im.image_obj with kwargs := applyKwargs im.image_obj.kwargs kwargs },
                 im.photo_image⟩)
    ∧ (inputConfig valid inp kwargs = .error .tclError
        ↔ ¬ kwargs.all (fun kv => valid kv.1 kv.2) = true)
    ∧ (kwargs.all (fun kv => valid kv.1 kv.2) = true →
        inputConfig valid inp kwargs
          = .ok ⟨{ inp.input_obj with kwargs := applyKwargs inp.input_obj.kwargs kwargs }⟩) := by
  by_cases hval : kwargs.all (fun kv => valid kv.1 kv.2) = true <;>
    refine ⟨?_, ?_, ?_, ?_, ?_, ?_, ?_, ?_⟩ <;>
      simp [buttonConfig, textConfig, imageConfig, inputConfig, tkConfigure,
        hval, Except.map]

/-- C8: for every widget variant, `destroy()` is one unguarded call to
the native destroy: on a live widget it succeeds and kills the native
widget, and a second `destroy()` on the now-dead widget fails exactly
when the native layer errors on double-destroy. -/
theorem c8_destroy_unguarded {K V : Type} (e : Bool)
    (b : ButtonW K V) (t : TextW K V) (im : ImageW K V) (inp : InputW K V)
    (hb : b.button_obj.alive = true) (ht : t.text_obj.alive = true)
    (him : im.image_obj.alive = true) (hinp : inp.input_obj.alive = true) :
    (buttonDestroy e b = .ok ⟨{ b.button_obj with alive := false }⟩
      ∧ (buttonDestroy e ⟨{ b.button_obj with alive := false }⟩ = .error .tclError
          ↔ e = true)
      ∧ (e = false → buttonDestroy e ⟨{ b.button_obj with alive := false }⟩
          = .ok ⟨{ b.button_obj with alive := false }⟩))
    ∧ (textDestroy e t = .ok ⟨{ t.text_obj with alive := false }⟩
      ∧ (textDestroy e ⟨{ t.text_obj with alive := false }⟩ = .error .tclError
          ↔ e = true)
      ∧ (e = false → textDestroy e ⟨{ t.text_obj with alive := false }⟩
          = .ok ⟨{ t.text_obj with alive := false }⟩))
    ∧ (imageDestroy e im = .ok ⟨{ im.image_obj with alive := false }, im.photo_image⟩
      ∧ (imageDestroy e ⟨{ im.image_obj with alive := false }, im.photo_image⟩
            = .error .tclError ↔ e = true)
      ∧ (e = false →
          imageDestroy e ⟨{ im.image_obj with alive := false }, im.photo_image⟩
            = .ok ⟨{ im.image_obj with alive := false }, im.photo_image⟩))
    ∧ (inputDestroy e inp = .ok ⟨{ inp.input_obj with alive := false }⟩
      ∧ (inputDestroy e ⟨{ inp.input_obj with alive := false }⟩ = .error .tclError
          ↔ e = true)
      ∧ (e = false → inputDestroy e ⟨{ inp.input_obj with alive := false }⟩
          = .ok ⟨{ inp.input_obj with alive := false }⟩)) := by
  cases e <;>
    refine ⟨⟨?_, ?_, ?_⟩, ⟨?_, ?_, ?_⟩, ⟨?_, ?_, ?_⟩, ⟨?_, ?_, ?_⟩⟩ <;>
      simp [buttonDestroy, textDestroy, imageDestroy, inputDestroy, tkDestroy,
        hb, ht, him, hinp, Except.map]

/-! Witnesses -/

/-- Witness for C2 at a concrete packargs mapping with one `None`
entry: the pack options keep (1, 2) and drop key 3. -/
theorem c2_packargs_filtered_witness :
    buttonInit (K := Nat) (V := Nat) (.screen ⟨0⟩) (some [(1, some 2), (3, none)]) []
      = ([.createWidget .button [], .packCall [(1, 2)]], .ok ⟨newWidget 0 [] [(1, 2)]⟩) :=
  (c2_packargs_filtered sampleHttpOk sampleDecode200 ⟨0⟩ [(1, some 2), (3, none)] []
    "a.png" none none ⟨newWidget 0 [] [(1, 2)], ⟨200, 100⟩⟩ rfl).2.1

/-- Witness for C3: a 200×100 image with width=100 only resizes to
100×50. -/
theorem c3_aspect_preserving_resize_witness :
    (imageInit (K := Nat) (V := Nat) sampleHttpOk sampleDecode200 (.screen ⟨0⟩)
        "a.png" none (some 100) none []).2
      = .ok ⟨newWidget 0 [] [], ⟨100, 50⟩⟩ :=
  (c3_aspect_preserving_resize sampleHttpOk sampleDecode200 ⟨0⟩ "a.png" none []
    (by decide) rfl).1

/-- Witness for C4: a URL answering 404 yields the HTTP error and a
trace holding only the fetch. -/
theorem c4_http_error_no_label_witness :
    imageInit (K := Nat) (V := Nat) sampleHttp404 sampleDecode200 (.screen ⟨0⟩)
        "http://e/x.png" none none none []
      = ([Event.httpGet "http://e/x.png"], .error .httpError) :=
  c4_http_error_no_label sampleHttp404 sampleDecode200 ⟨0⟩ "http://e/x.png" none
    none none [] (by decide) (by decide) (by decide)

/-- Witness for C6: an "http://" source is fetched and its bytes are
decoded. -/
theorem c6_source_classification_witness :
    (imageInit (K := Nat) (V := Nat) sampleHttpOk sampleDecode200 (.screen ⟨0⟩)
        "http://e/x.png" none none none []).1.head?
      = some (.httpGet "http://e/x.png")
    ∧ Event.decodeImage (.bytes [7])
        ∈ (imageInit (K := Nat) (V := Nat) sampleHttpOk sampleDecode200 (.screen ⟨0⟩)
            "http://e/x.png" none none none []).1 :=
  (c6_source_classification sampleHttpOk sampleDecode200 ⟨0⟩ "http://e/x.png"
    none none none [] (by decide)).2.1 (by decide)

/-- Witness for C7: a single accepted option is stored unchanged on a
concrete button. -/
theorem c7_config_passthrough_witness :
    buttonConfig (fun k _ => k == "text") sampleButton [("text", 5)]
      = .ok ⟨{ sampleWidget with kwargs := [("text", 5)] }⟩ :=
  (c7_config_passthrough (fun k _ => k == "text") sampleButton sampleText
    sampleImage sampleInput [("text", 5)]).2.1 (by decide)

/-- Witness for C8: destroying a live concrete button succeeds, and a
second destroy errors when the native layer errors on double-destroy. -/
theorem c8_destroy_unguarded_witness :
    buttonDestroy true sampleButton = .ok ⟨{ sampleWidget with alive := false }⟩
    ∧ (buttonDestroy true ⟨{ sampleWidget with alive := false }⟩ = .error .tclError
        ↔ True) :=
  ⟨(c8_destroy_unguarded true sampleButton sampleText sampleImage sampleInput
      rfl rfl rfl rfl).1.1,
   by
    have h := (c8_destroy_unguarded true sampleButton sampleText sampleImage
      sampleInput rfl rfl rfl rfl).1.2.1
    simpa using h⟩

/-- Witness for C9: width=0 with no height leaves the 200×100 image
unresized. -/
theorem c9_zero_dimension_falsy_witness :
    (imageInit (K := Nat) (V := Nat) sampleHttpOk sampleDecode200 (.screen ⟨0⟩)
        "a.png" none (some 0) none []).2
      = .ok ⟨newWidget 0 [] [], ⟨200, 100⟩⟩ :=
  (c9_zero_dimension_falsy sampleHttpOk sampleDecode200 ⟨0⟩ "a.png" none [] 200 100
    (by decide) rfl).2.1

/-- Witness for C10: destroying a concrete image keeps its photo image. -/
theorem c10_destroy_keeps_photo_witness :
    (⟨{ sampleWidget with alive := false }, ⟨200, 100⟩⟩ : ImageW Nat Nat).photo_image
      = sampleImage.photo_image :=
  (c10_destroy_keeps_photo true sampleImage
    ⟨{ sampleWidget with alive := false }, ⟨200, 100⟩⟩ rfl).1

end InGame
